import Mathlib

/-!
Verification of the reconstruction/optimization core of the BirT repository
(`VolumeRaytraceLFM/reconstructions.py`, `VolumeRaytraceLFM/metrics/metric.py`).

Shallow embedding conventions:
* Python floats are modelled by the rationals wherever only field arithmetic
  occurs; operations involving `sqrt`, `cos`, `sin` are modelled over the reals.
* IEEE special values (NaN, infinities) are modelled by the inductive type
  `FP` below at the places where the code's behaviour depends on them
  (`torch.isnan`, division by a zero maximum).
* Tensors are modelled as lists (one entry per voxel / pixel); a 3xN optic-axis
  tensor is modelled as a list of columns.
* PyTorch randomness (`torch.rand`) is modelled by passing the sampled values
  as an explicit argument.
-/

namespace BirT

/-- A floating-point scalar: either a finite value (idealized as a rational),
NaN, or an infinity.  Only the distinctions the source code observes
(`torch.isnan`, comparison with zero) are modelled; the sign of an infinity is
not tracked because no modelled code path depends on it. -/
inductive FP where
  | fin : ℚ → FP
  | nan : FP
  | inf : FP
deriving DecidableEq, Repr

/-- Model of `torch.isnan` on a scalar. -/
def FP.isnan : FP → Bool
  | FP.nan => true
  | _ => false

/-- Model of `torch.isfinite` on a scalar. -/
def FP.isFinite : FP → Bool
  | FP.fin _ => true
  | _ => false

/-- IEEE division on modelled floats: a finite numerator over a zero
denominator gives NaN (0/0) or an infinity (x/0, x nonzero); any NaN or
infinite operand propagates to NaN (the modelled code only ever divides
finite values, so the collapsed non-finite cases are never reached). -/
def FP.div : FP → FP → FP
  | FP.fin a, FP.fin b =>
      if b = 0 then (if a = 0 then FP.nan else FP.inf) else FP.fin (a / b)
  | _, _ => FP.nan

/-! ## Loss bookkeeping (`Reconstructor._compute_loss`, `Reconstructor.store_results`)

`_compute_loss` (reconstructions.py lines 681-732) computes
`regularization_term = params["regularization_weight"] * reg_loss` and
`loss = data_term + regularization_term`, returning the triple
`(loss, data_term, regularization_term)`.  `store_results` (lines 899-915)
appends the three values to `loss_total_list`, `loss_data_term_list` and
`loss_reg_term_list`.  The forward model and the raw regularization functions
are external inputs here: each epoch is summarized by the pair
(data term, raw regularization loss) it produced. -/

/-- The three per-epoch loss lists accumulated by the `Reconstructor`. -/
structure LossLists where
  loss_total_list : List ℚ
  loss_data_term_list : List ℚ
  loss_reg_term_list : List ℚ
deriving DecidableEq, Repr

/-- Model of `Reconstructor._compute_loss` (lines 722-732): given the
configured regularization weight, the data-fidelity term and the raw
regularization loss of the current iteration, return
`(loss, data_term, regularization_term)` where
`regularization_term = weight * reg_loss` and
`loss = data_term + regularization_term`. -/
def compute_loss (regularization_weight data_term reg_loss : ℚ) : ℚ × ℚ × ℚ :=
  let regularization_term := regularization_weight * reg_loss
  let loss := data_term + regularization_term
  (loss, data_term, regularization_term)

/-- Model of `Reconstructor.store_results` (lines 899-915): append the three
loss values of the current epoch to the three lists. -/
def store_results (st : LossLists) (loss data_term regularization_term : ℚ) : LossLists :=
  ⟨st.loss_total_list ++ [loss],
   st.loss_data_term_list ++ [data_term],
   st.loss_reg_term_list ++ [regularization_term]⟩

/-- Model of the per-epoch loss recording across a run: each epoch is
summarized by its `(data_term, reg_loss)` pair, processed through
`compute_loss` and `store_results` in order. -/
def run_epoch_losses (regularization_weight : ℚ) (epochs : List (ℚ × ℚ)) : LossLists :=
  epochs.foldl
    (fun st p =>
      let r := compute_loss regularization_weight p.1 p.2
      store_results st r.1 r.2.1 r.2.2)
    ⟨[], [], []⟩

/-! ## Learning-rate warmup (`Reconstructor.reconstruct`, lines 1209-1246)

The source hardcodes `warmup_epochs = 10` and `warmup_start_proportion = 0.1`,
then for each epoch `ep` in `1..n_epochs`:
`if ep < warmup_epochs:` set every parameter group's learning rate to
`initial_lr * (warmup_start_proportion + (1 - warmup_start_proportion) * (ep / warmup_epochs))`,
`else:` keep the learning rate currently held by the scheduler's optimizer.
The `ReduceLROnPlateau` scheduler (patience 10) cannot perform a reduction
before its 12th step, so through epoch `warmup_epochs` the held value is
exactly the value written by the last warmup epoch; the model below treats the
scheduler as the identity, which is faithful for every epoch up to and
including `warmup_epochs`. -/

def warmup_epochs : ℕ := 10

def warmup_start_proportion : ℚ := 1 / 10

/-- The warmup formula of `reconstruct` (lines 1218-1225). -/
def warmup_lr (initial_lr : ℚ) (ep : ℕ) : ℚ :=
  initial_lr *
    (warmup_start_proportion +
      (1 - warmup_start_proportion) * ((ep : ℚ) / (warmup_epochs : ℚ)))

/-- The learning rate of a parameter group in effect during epoch `ep`
(epochs are counted from 1 as in the source loop).  For `ep <
warmup_epochs` the warmup formula is applied; otherwise the value held by
the optimizer (last written value) is kept, the scheduler being modelled as
the identity (valid through epoch `warmup_epochs`, see above).  Before the
loop the group holds `initial_lr`. -/
def lr_at_epoch (initial_lr : ℚ) : ℕ → ℚ
  | 0 => initial_lr
  | ep + 1 =>
      if ep + 1 < warmup_epochs then warmup_lr initial_lr (ep + 1)
      else lr_at_epoch initial_lr ep

/-! ## Azimuth damping mask (`Reconstructor.reconstruct`, lines 1259-1260)

Each epoch executes
`azim_damp_mask = self._to_numpy(self.ret_img_meas / self.ret_img_meas.max())`
followed by `self.azim_img_pred[azim_damp_mask == 0] = 0`.  The division is
performed unconditionally; there is no guard on `ret_img_meas.max() == 0`. -/

/-- Model of `ret_img_meas.max()`: the maximum entry of the measured
retardance image (numpy max over a nonempty array). -/
def ret_img_max (ret : List ℚ) : ℚ :=
  ret.foldl max (ret.headD 0)

/-- Model of `azim_damp_mask = ret_img_meas / ret_img_meas.max()` (line 1259):
an unconditional elementwise IEEE division by the image maximum. -/
def azim_damp_mask (ret : List ℚ) : List FP :=
  ret.map (fun x => FP.div (FP.fin x) (FP.fin (ret_img_max ret)))

/-- Model of `azim_img_pred[azim_damp_mask == 0] = 0` (line 1260): zero the
azimuth prediction wherever the damping mask equals zero (a NaN mask entry
compares unequal to zero, as in numpy, leaving the pixel untouched). -/
def damp_azimuth (ret : List ℚ) (azim : List ℚ) : List ℚ :=
  (azim.zip (azim_damp_mask ret)).map
    (fun p => if p.2 = FP.fin 0 then 0 else p.1)

/-! ## NaN recovery (`Reconstructor.replace_nans`, lines 444-459)

```
num_nan_vecs = torch.sum(torch.isnan(volume.optic_axis[0, :]))
replacement_vecs = torch.nn.functional.normalize(torch.rand(3, int(num_nan_vecs)), p=2, dim=0)
volume.optic_axis[:, torch.isnan(volume.optic_axis[0, :])] = replacement_vecs
```
The NaN test looks only at row 0 (the first component of each axis vector).
The randomly sampled replacement columns are modelled as an explicit list of
rational unit vectors (the output of `normalize` on `torch.rand` columns),
consumed left to right. -/

/-- A column of the 3xN optic-axis tensor, as modelled floats. -/
abbrev AxisCol := FP × FP × FP

/-- A finite replacement column (the idealized output of
`normalize(torch.rand(3, _))`). -/
abbrev QVec3 := ℚ × ℚ × ℚ

/-- Promote a finite replacement column to a column of modelled floats. -/
def finCol (r : QVec3) : AxisCol :=
  (FP.fin r.1, FP.fin r.2.1, FP.fin r.2.2)

/-- All three components of a column are finite. -/
def colFinite (c : AxisCol) : Bool :=
  c.1.isFinite && c.2.1.isFinite && c.2.2.isFinite

/-- The finite value of a modelled float (0 for NaN or infinity; only used on
columns known to be finite). -/
def FP.toRat : FP → ℚ
  | FP.fin q => q
  | _ => 0

/-- Sum of squared components of a column (its squared Euclidean norm, for a
finite column). -/
def colSqNorm (c : AxisCol) : ℚ :=
  c.1.toRat ^ 2 + c.2.1.toRat ^ 2 + c.2.2.toRat ^ 2

/-- Number of columns whose FIRST component is NaN — the source's
`num_nan_vecs = torch.sum(torch.isnan(volume.optic_axis[0, :]))`. -/
def num_nan_vecs (axis : List AxisCol) : ℕ :=
  (axis.filter (fun c => c.1.isnan)).length

/-- Model of `Reconstructor.replace_nans` (lines 444-459): every column whose
first component is NaN is overwritten by the next sampled replacement column;
all other columns are left untouched.  `repl` holds the sampled unit vectors
(the code samples exactly `num_nan_vecs` of them, so `repl` never runs dry;
if it did, remaining flagged columns would stay unchanged). -/
def replace_nans : List AxisCol → List QVec3 → List AxisCol
  | [], _ => []
  | c :: cs, repl =>
      if c.1.isnan then
        match repl with
        | [] => c :: replace_nans cs []
        | r :: rs => finCol r :: replace_nans cs rs
      else c :: replace_nans cs repl

/-! ## Active parameter derivation (`Reconstructor.create_parameters_from_mask`, lines 1104-1125)

```
active_indices = torch.where(mask)[0]
max_index = mask.size()[0]
idx_tensor = torch.full((max_index + 1,), -1, dtype=torch.long)
positions = torch.arange(len(active_indices), dtype=torch.long)
idx_tensor[active_indices] = positions
```
-/

/-- Helper for `torch.where(mask)[0]`: indices (counted from `start`) of the
true entries, in ascending order. -/
def active_indices_from : List Bool → ℕ → List ℕ
  | [], _ => []
  | b :: bs, i =>
      if b then i :: active_indices_from bs (i + 1)
      else active_indices_from bs (i + 1)

/-- Model of `active_indices = torch.where(mask)[0]` (line 1107): the positions
of the true mask entries, ascending from 0. -/
def active_indices (mask : List Bool) : List ℕ :=
  active_indices_from mask 0

/-- Model of the inverse lookup built on lines 1110-1113: a tensor of size
`mask.length + 1` filled with the sentinel -1, then scattered with
`idx_tensor[active_indices] = positions`. -/
def idx_tensor (mask : List Bool) : List ℤ :=
  (active_indices mask).enum.foldl
    (fun t pv => t.set pv.2 (pv.1 : ℤ))
    (List.replicate (mask.length + 1) (-1))

/-! ## Reconstructor construction (`Reconstructor.__init__`, lines 255-397)

Only the configuration handling and volume masking the claims depend on are
modelled; raytracer setup, file I/O and plotting are external collaborators.
The order of the modelled steps follows the source: the
`free_memory_by_del_large_arrays`/`apply_volume_mask` exclusion check (lines
322-329) precedes `apply_mask_to_volume(self.volume_pred)` (line 376) and the
initialization of the empty loss lists (lines 392-395). -/

/-- The slice of the constructor inputs the modelled steps read: the two
configuration flags, the initial guess birefringence, and the voxel mask
(as finally established by `rays.mask` or `voxel_mask_setup`). -/
structure InitConfig where
  free_memory_by_del_large_arrays : Bool
  apply_volume_mask : Bool
  initial_Delta_n : List ℚ
  mask : List Bool
deriving DecidableEq, Repr

/-- The slice of the constructed `Reconstructor` state the claims read. -/
structure ReconState where
  remove_large_arrs : Bool
  apply_volume_mask : Bool
  volume_pred_Delta_n : List ℚ
  mask : List Bool
  losses : LossLists
deriving DecidableEq, Repr

/-- Model of `Reconstructor.apply_mask_to_volume` (lines 675-679):
`volume.Delta_n = Parameter(volume.Delta_n * mask)`, an elementwise product
of the birefringence with the boolean mask (true = 1, false = 0). -/
def apply_mask_to_volume (Delta_n : List ℚ) (mask : List Bool) : List ℚ :=
  (Delta_n.zip mask).map (fun p => p.1 * (if p.2 then 1 else 0))

/-- Model of `Reconstructor.__init__` (relevant slice): raises (returns
`Except.error` with the source's message — the Python adjacent string
literals concatenate without a space) when both `free_memory_by_del_large_arrays`
and `apply_volume_mask` are requested, otherwise produces the constructed
state, whose predicted volume has been masked by `apply_mask_to_volume` and
whose loss lists are empty. -/
def reconstructor_init (cfg : InitConfig) : Except String ReconState :=
  let remove_large_arrs := cfg.free_memory_by_del_large_arrays
  if remove_large_arrs && cfg.apply_volume_mask then
    Except.error
      "Cannot remove large arrays and apply mask tovolume gradient at the same time."
  else
    Except.ok
      ⟨remove_large_arrs, cfg.apply_volume_mask,
       apply_mask_to_volume cfg.initial_Delta_n cfg.mask,
       cfg.mask, ⟨[], [], []⟩⟩

/-! ## Optic-axis constraint projection (`one_iteration`, lines 822-825)

```
if self.two_optic_axis_components:
    self.fill_optaxis_component(volume_estimation)
self.keep_optic_axis_on_sphere(volume_estimation)
```
`fill_optaxis_component` calls `fill_vector_based_on_nonaxial(optic_axis_active,
optic_axis_planar)` and `keep_optic_axis_on_sphere` calls
`stay_on_sphere(optic_axis)`; both callees live in
`VolumeRaytraceLFM/volumes/optic_axis.py`, which is not part of the sources
here, so they are modelled from the spec. -/

/-- Modelled from the spec: `stay_on_sphere`
(`VolumeRaytraceLFM/volumes/optic_axis.py`, not in the sources) —
"re-normalize the optic-axis vector to unit length after every update":
each column is divided by its Euclidean norm. -/
noncomputable def stay_on_sphere (a : Fin 3 → ℝ) : Fin 3 → ℝ :=
  fun i => a i / Real.sqrt (∑ j, a j ^ 2)

/-- Modelled from the spec: `fill_vector_based_on_nonaxial`
(`VolumeRaytraceLFM/volumes/optic_axis.py`, not in the sources) — "fill the
axial component of the optic axis with the square root of the remaining
components" under the unit-norm constraint
(`axial = ±sqrt(1 - planar_1^2 - planar_2^2)`; the spec leaves the sign
convention open and the positive branch is taken here).  Since
`create_parameters_from_mask` makes rows 1 and 2 the planar components, the
derived axial value occupies row 0. -/
noncomputable def fill_vector_based_on_nonaxial (planar : Fin 2 → ℝ) : Fin 3 → ℝ :=
  ![Real.sqrt (1 - planar 0 ^ 2 - planar 1 ^ 2), planar 0, planar 1]

/-- The column fed into the normalization by the constraint-projection phase
of `one_iteration` (lines 822-825): in two-component mode the column freshly
filled from the planar components, otherwise the current active column. -/
noncomputable def constraint_input (two_optic_axis_components : Bool)
    (planar : Fin 2 → ℝ) (axis : Fin 3 → ℝ) : Fin 3 → ℝ :=
  if two_optic_axis_components then fill_vector_based_on_nonaxial planar else axis

/-- The constraint-projection phase of `one_iteration` (lines 822-825) on one
active column: in two-component mode the axial component is reconstructed
first, then the column is normalized onto the unit sphere. -/
noncomputable def one_iteration_constraint_project (two_optic_axis_components : Bool)
    (planar : Fin 2 → ℝ) (axis : Fin 3 → ℝ) : Fin 3 → ℝ :=
  stay_on_sphere (constraint_input two_optic_axis_components planar axis)

/-! ## Vector-form data-fidelity term (`PolarimetricLossFunction`, metric.py lines 51-74)

```
cosine_term = ret * torch.cos(2 * azim)
sine_term = ret * torch.sin(2 * azim)
...
loss_cos = F.mse_loss(cos_pred, cos_gt)
loss_sin = F.mse_loss(sin_pred, sin_gt)
loss = loss_cos + loss_sin
```
Images are modelled as functions `Fin n → ℝ` (one value per pixel);
`F.mse_loss` with its default mean reduction is the mean of squared
differences. -/

/-- Model of `transform_ret_azim_to_vector_form` (metric.py lines 51-63) on
one pixel. -/
noncomputable def transform_ret_azim_to_vector_form (ret azim : ℝ) : ℝ × ℝ :=
  (ret * Real.cos (2 * azim), ret * Real.sin (2 * azim))

/-- Model of `F.mse_loss` (mean reduction) between two images. -/
noncomputable def mse_loss {n : ℕ} (pred gt : Fin n → ℝ) : ℝ :=
  (∑ i, (pred i - gt i) ^ 2) / n

/-- Model of `vector_loss` (metric.py lines 65-74): both the target and the
predicted (retardance, azimuth) image pairs are transformed to vector form
and the two componentwise MSE losses are summed. -/
noncomputable def vector_loss {n : ℕ} (ret_gt azim_gt ret_pred azim_pred : Fin n → ℝ) : ℝ :=
  mse_loss (fun i => (transform_ret_azim_to_vector_form (ret_pred i) (azim_pred i)).1)
      (fun i => (transform_ret_azim_to_vector_form (ret_gt i) (azim_gt i)).1) +
  mse_loss (fun i => (transform_ret_azim_to_vector_form (ret_pred i) (azim_pred i)).2)
      (fun i => (transform_ret_azim_to_vector_form (ret_gt i) (azim_gt i)).2)

/-! ## Two-component optic-axis parametrization (`create_parameters_from_mask`, lines 1115-1125)

```
if self.two_optic_axis_components:
    volume.optic_axis.requires_grad = False
    volume.optic_axis_active = volume.optic_axis[:, active_indices]
    volume.optic_axis_planar = torch.nn.Parameter(volume.optic_axis_active[1:, :])
else:
    volume.optic_axis_active = torch.nn.Parameter(volume.optic_axis[:, active_indices])
volume.birefringence_active = torch.nn.Parameter(volume.Delta_n[active_indices])
```
A tensor with its `requires_grad` flag is modelled as a `GradTensor`; the
3xN optic axis as a list of columns `Fin 3 → ℝ`. -/

/-- A tensor together with its `requires_grad` flag (`torch.nn.Parameter`
creation sets the flag to true). -/
structure GradTensor (α : Type) where
  val : α
  requires_grad : Bool

/-- The slice of the volume state `create_parameters_from_mask` operates on. -/
structure VolumeState where
  Delta_n : GradTensor (List ℝ)
  optic_axis : GradTensor (List (Fin 3 → ℝ))

/-- The attributes created on the volume by `create_parameters_from_mask`.
`optic_axis_planar` is only created in two-component mode;
`optic_axis_requires_grad` records the flag of the full-grid optic axis after
the call. -/
structure ActiveParams where
  indices_active : List ℕ
  active_idx2spatial_idx_tensor : List ℤ
  optic_axis_requires_grad : Bool
  optic_axis_active : GradTensor (List (Fin 3 → ℝ))
  optic_axis_planar : Option (GradTensor (List (Fin 2 → ℝ)))
  birefringence_active : GradTensor (List ℝ)

/-- Model of `Reconstructor.create_parameters_from_mask` (lines 1104-1125).
In two-component mode gradient tracking on the full-grid optic axis is
disabled, the active optic axis is a plain slice (no gradient tracking of its
own), and only its rows 1 and 2 — the planar components of each active
column — become a trainable `Parameter`; otherwise the full 3-component
active slice is the trainable `Parameter`. -/
def create_parameters_from_mask (two_optic_axis_components : Bool)
    (vol : VolumeState) (mask : List Bool) : ActiveParams :=
  let act := active_indices mask
  let axis_cols := act.map (fun i => vol.optic_axis.val.getD i (fun _ => 0))
  if two_optic_axis_components then
    ⟨act, idx_tensor mask, false,
     ⟨axis_cols, false⟩,
     some ⟨axis_cols.map (fun c => ![c 1, c 2]), true⟩,
     ⟨act.map (fun i => vol.Delta_n.val.getD i 0), true⟩⟩
  else
    ⟨act, idx_tensor mask, vol.optic_axis.requires_grad,
     ⟨axis_cols, true⟩,
     none,
     ⟨act.map (fun i => vol.Delta_n.val.getD i 0), true⟩⟩

/-- Model of `Reconstructor.fill_optaxis_component` (lines 743-752): write
the reconstructed axial component into the active optic axis from the planar
parameter (per column, via `fill_vector_based_on_nonaxial`); no-op when no
planar parameter exists. -/
noncomputable def fill_optaxis_component (ap : ActiveParams) : ActiveParams :=
  match ap.optic_axis_planar with
  | some pl =>
      ⟨ap.indices_active, ap.active_idx2spatial_idx_tensor,
       ap.optic_axis_requires_grad,
       ⟨pl.val.map fill_vector_based_on_nonaxial, ap.optic_axis_active.requires_grad⟩,
       ap.optic_axis_planar, ap.birefringence_active⟩
  | none => ap

/-! ## Example inputs used by witnesses and counterexamples -/

/-- The mask of the spec scenario: 10 voxels, true exactly at 1, 4, 7. -/
def mask_example : List Bool :=
  [false, true, false, false, true, false, false, true, false, false]

/-- A 3x2 optic-axis tensor whose first column has a NaN first component. -/
def axis_example : List AxisCol :=
  [(FP.nan, FP.fin 0, FP.fin 0), (FP.fin 1, FP.fin 2, FP.fin 3)]

/-- One sampled replacement unit vector (3/5, 4/5, 0). -/
def repl_example : List QVec3 := [(3 / 5, 4 / 5, 0)]

/-- Default column used with `List.getD` (all components finite). -/
def dflt_col : AxisCol := (FP.fin 0, FP.fin 0, FP.fin 0)

/-- A configuration requesting both memory-freeing and gradient masking. -/
def cfg_conflict_example : InitConfig := ⟨true, true, [1, 2], [true, false]⟩

/-- A conflict-free configuration with a two-voxel volume, mask false at 1. -/
def cfg_mask_example : InitConfig := ⟨false, false, [5, 7], [true, false]⟩

/-! ## Helper lemmas -/

lemma run_epoch_losses_foldl (w : ℚ) (epochs : List (ℚ × ℚ)) (st : LossLists) :
    epochs.foldl
        (fun st p =>
          let r := compute_loss w p.1 p.2
          store_results st r.1 r.2.1 r.2.2) st =
      ⟨st.loss_total_list ++ epochs.map (fun p => p.1 + w * p.2),
       st.loss_data_term_list ++ epochs.map Prod.fst,
       st.loss_reg_term_list ++ epochs.map (fun p => w * p.2)⟩ := by
  induction epochs generalizing st with
  | nil => simp
  | cons e es ih =>
      rw [List.foldl_cons, ih]
      simp [compute_loss, store_results, List.append_assoc]

lemma zipWith_add_of_maps (w : ℚ) (es : List (ℚ × ℚ)) :
    List.zipWith (· + ·) (es.map Prod.fst) (es.map (fun p => w * p.2)) =
      es.map (fun p => p.1 + w * p.2) := by
  induction es with
  | nil => rfl
  | cons e es ih => simp [ih]

lemma lr_at_epoch_succ (l : ℚ) (k : ℕ) :
    lr_at_epoch l (k + 1) =
      if k + 1 < warmup_epochs then warmup_lr l (k + 1) else lr_at_epoch l k := rfl

/-! ## Claim theorems -/

/-- C1 counterexample: with regularization weight 2 and a single epoch whose
data term is 1 and raw regularization loss is 3, the recorded total loss (7)
differs from the recorded data term plus the weight times the recorded
regularization term (1 + 2·6 = 13), because the recorded regularization term
(6) already contains the weight. -/
theorem C1_counterexample :
    (run_epoch_losses 2 [(1, 3)]).loss_total_list.getD 0 0 ≠
      (run_epoch_losses 2 [(1, 3)]).loss_data_term_list.getD 0 0 +
        2 * (run_epoch_losses 2 [(1, 3)]).loss_reg_term_list.getD 0 0 := by
  norm_num [run_epoch_losses, compute_loss, store_results, List.getD]

/-- C1 (amended): for every completed epoch, the recorded total loss equals
the recorded data-fidelity term plus the recorded regularization term — the
recorded regularization term already contains the configured regularization
weight (it equals weight times the raw regularization loss). -/
theorem C1_loss_decomposition (w : ℚ) (epochs : List (ℚ × ℚ)) :
    (run_epoch_losses w epochs).loss_total_list =
      List.zipWith (· + ·) (run_epoch_losses w epochs).loss_data_term_list
        (run_epoch_losses w epochs).loss_reg_term_list ∧
    (run_epoch_losses w epochs).loss_reg_term_list =
      epochs.map (fun p => w * p.2) := by
  unfold run_epoch_losses
  rw [run_epoch_losses_foldl]
  simp [zipWith_add_of_maps]

/-- C2 counterexample: with initial learning rate 1, the learning rate in
effect at epoch 1 is 19/100 (the warmup formula at ep = 1), not
initial_lr · 0.1 = 1/10. -/
theorem C2_counterexample :
    lr_at_epoch 1 1 ≠ 1 * (1 / 10) ∧ lr_at_epoch 1 1 = 19 / 100 := by
  have h : lr_at_epoch 1 1 = 19 / 100 := by
    rw [show (1 : ℕ) = 0 + 1 from rfl, lr_at_epoch_succ,
      if_pos (by norm_num [warmup_epochs])]
    norm_num [warmup_lr, warmup_start_proportion, warmup_epochs]
  exact ⟨by rw [h]; norm_num, h⟩

/-- C2 (amended): under the default warmup settings (warmup_epochs = 10,
starting fraction 0.1), the learning rate during a warmup epoch
1 ≤ ep < warmup_epochs is initial_lr · (1/10 + (9/10)·(ep/10)); in particular
it is 0.19 · initial_lr at epoch 1 (not 0.1 · initial_lr), and at epoch
warmup_epochs it is 0.91 · initial_lr — the value written by the last warmup
epoch — because the warmup branch requires ep < warmup_epochs strictly. -/
theorem C2_warmup_lr (initial_lr : ℚ) (ep : ℕ) (h1 : 1 ≤ ep) (h2 : ep < warmup_epochs) :
    lr_at_epoch initial_lr ep =
      initial_lr * (1 / 10 + (9 / 10) * ((ep : ℚ) / 10)) ∧
    lr_at_epoch initial_lr 1 = initial_lr * (19 / 100) ∧
    lr_at_epoch initial_lr warmup_epochs = initial_lr * (91 / 100) := by
  refine ⟨?_, ?_, ?_⟩
  · obtain ⟨k, rfl⟩ : ∃ k, ep = k + 1 := ⟨ep - 1, (Nat.succ_pred_eq_of_pos h1).symm⟩
    rw [lr_at_epoch_succ, if_pos h2]
    unfold warmup_lr warmup_start_proportion warmup_epochs
    push_cast
    ring
  · rw [show (1 : ℕ) = 0 + 1 from rfl, lr_at_epoch_succ,
      if_pos (by norm_num [warmup_epochs])]
    norm_num [warmup_lr, warmup_start_proportion, warmup_epochs]
  · rw [show warmup_epochs = 9 + 1 from rfl, lr_at_epoch_succ,
      if_neg (by norm_num [warmup_epochs]),
      show (9 : ℕ) = 8 + 1 from rfl, lr_at_epoch_succ,
      if_pos (by norm_num [warmup_epochs])]
    norm_num [warmup_lr, warmup_start_proportion, warmup_epochs]

/-- C2 witness: the amended warmup statement instantiated at initial_lr = 2
and ep = 3 (learning rate 2 · (1/10 + (9/10) · (3/10)) = 0.74). -/
theorem C2_warmup_lr_witness :
    1 ≤ 3 ∧ 3 < warmup_epochs ∧
    (lr_at_epoch 2 3 = 2 * (1 / 10 + (9 / 10) * (((3 : ℕ) : ℚ) / 10)) ∧
     lr_at_epoch 2 1 = 2 * (19 / 100) ∧
     lr_at_epoch 2 warmup_epochs = 2 * (91 / 100)) :=
  ⟨by norm_num, by norm_num [warmup_epochs],
   C2_warmup_lr 2 3 (by norm_num) (by norm_num [warmup_epochs])⟩

/-- C3: on a measured retardance image that is identically zero, the
per-epoch statement `azim_damp_mask = ret_img_meas / ret_img_meas.max()`
(reconstructions.py line 1259) performs the division anyway — the maximum is
0, every mask entry is the division-by-zero result 0/0 = NaN, and the
subsequent zeroing `azim_img_pred[azim_damp_mask == 0] = 0` silently does
nothing: the normalization step is neither skipped nor guarded. -/
theorem C3_unguarded_zero_max :
    ret_img_max [0, 0, 0] = 0 ∧
    azim_damp_mask [0, 0, 0] = [FP.nan, FP.nan, FP.nan] ∧
    damp_azimuth [0, 0, 0] [5, 6, 7] = [5, 6, 7] := by
  refine ⟨?_, ?_, ?_⟩
  · norm_num [ret_img_max, List.foldl]
  · norm_num [azim_damp_mask, ret_img_max, FP.div, List.foldl]
  · norm_num [damp_azimuth, azim_damp_mask, ret_img_max, FP.div, List.foldl, List.zip]
    decide

/-- C4: after the constraint-projection phase of `one_iteration`, every active
voxel's optic-axis column is unit-norm (its sum of squared components is
exactly 1, so its Euclidean norm is within 1e-5 of 1), provided the
pre-normalization column is nonzero; and in two-component mode the projected
column is the normalization of the column whose axial component was first
reconstructed from the two planar components (`constraint_input true` is the
filled column, fed to `stay_on_sphere` afterwards). -/
theorem C4_constraint_project_unit_norm (two_mode : Bool)
    (planar : Fin 2 → ℝ) (axis : Fin 3 → ℝ)
    (h : (∑ j, constraint_input two_mode planar axis j ^ 2) ≠ 0) :
    one_iteration_constraint_project two_mode planar axis =
      stay_on_sphere (constraint_input two_mode planar axis) ∧
    (∑ i, one_iteration_constraint_project two_mode planar axis i ^ 2) = 1 ∧
    |Real.sqrt (∑ i, one_iteration_constraint_project two_mode planar axis i ^ 2) - 1|
      ≤ 1e-5 := by
  have hS : (0 : ℝ) ≤ ∑ j, constraint_input two_mode planar axis j ^ 2 :=
    Finset.sum_nonneg fun j _ => sq_nonneg _
  have hsum : (∑ i, one_iteration_constraint_project two_mode planar axis i ^ 2) = 1 := by
    simp only [one_iteration_constraint_project, stay_on_sphere, div_pow]
    rw [← Finset.sum_div, Real.sq_sqrt hS, div_self h]
  refine ⟨rfl, hsum, ?_⟩
  rw [hsum, Real.sqrt_one, sub_self, abs_zero]
  norm_num

/-- C4 witness: the projection statement instantiated in three-component mode
at the concrete column (3, 4, 0), whose squared norm 25 is nonzero. -/
theorem C4_witness :
    (∑ j, constraint_input false ![0, 0] ![(3 : ℝ), 4, 0] j ^ 2) ≠ 0 ∧
    (one_iteration_constraint_project false ![0, 0] ![(3 : ℝ), 4, 0] =
      stay_on_sphere (constraint_input false ![0, 0] ![(3 : ℝ), 4, 0]) ∧
     (∑ i, one_iteration_constraint_project false ![0, 0] ![(3 : ℝ), 4, 0] i ^ 2) = 1 ∧
     |Real.sqrt (∑ i, one_iteration_constraint_project false ![0, 0] ![(3 : ℝ), 4, 0] i ^ 2) - 1|
       ≤ 1e-5) := by
  have h : (∑ j, constraint_input false ![0, 0] ![(3 : ℝ), 4, 0] j ^ 2) ≠ 0 := by
    simp [constraint_input, Fin.sum_univ_three]
    norm_num
  exact ⟨h, C4_constraint_project_unit_norm false ![0, 0] ![(3 : ℝ), 4, 0] h⟩

/-- C8: the vector-form data-fidelity term is invariant under adding pi to
every azimuth value of the predicted azimuth image, because the transform to
vector form only uses cos(2·azimuth) and sin(2·azimuth). -/
theorem C8_vector_loss_azimuth_period {n : ℕ}
    (ret_gt azim_gt ret_pred azim_pred : Fin n → ℝ) :
    vector_loss ret_gt azim_gt ret_pred (fun i => azim_pred i + Real.pi) =
      vector_loss ret_gt azim_gt ret_pred azim_pred := by
  have ht : ∀ r a : ℝ, transform_ret_azim_to_vector_form r (a + Real.pi) =
      transform_ret_azim_to_vector_form r a := by
    intro r a
    unfold transform_ret_azim_to_vector_form
    rw [show 2 * (a + Real.pi) = 2 * a + 2 * Real.pi by ring,
      Real.cos_add_two_pi, Real.sin_add_two_pi]
  unfold vector_loss
  simp only [ht]

/-- C5 counterexample: a column whose second component is NaN but whose first
component is finite is a non-finite optic-axis vector, yet `replace_nans`
leaves it untouched (the NaN test only looks at the first components), so
after recovery it is still not finite — refuting "every non-finite axis
vector is replaced ... that vector is finite and unit-norm". -/
theorem C5_counterexample :
    replace_nans [(FP.fin 1, FP.nan, FP.fin 0)] [(3 / 5, 4 / 5, 0)] =
      [(FP.fin 1, FP.nan, FP.fin 0)] ∧
    colFinite (FP.fin 1, FP.nan, FP.fin 0) = false := by
  exact ⟨rfl, rfl⟩

/-- C5 (amended): `replace_nans` replaces exactly those axis columns whose
FIRST component is NaN with the freshly sampled unit vectors (after recovery
such a column is finite and unit-norm), and leaves every other column
unchanged — including columns that are non-finite only in their second or
third component. -/
theorem C5_replace_nans_localized (axis : List AxisCol) (repl : List QVec3)
    (hunit : ∀ r ∈ repl, r.1 ^ 2 + r.2.1 ^ 2 + r.2.2 ^ 2 = 1) (j : ℕ) :
    ((axis.getD j dflt_col).1.isnan = false →
      (replace_nans axis repl).getD j dflt_col = axis.getD j dflt_col) ∧
    (j < axis.length → (axis.getD j dflt_col).1.isnan = true →
      num_nan_vecs axis ≤ repl.length →
      ∃ r ∈ repl, (replace_nans axis repl).getD j dflt_col = finCol r ∧
        colFinite (finCol r) = true ∧ colSqNorm (finCol r) = 1) := by
  induction axis generalizing repl j with
  | nil =>
      exact ⟨fun _ => rfl, fun hj _ _ => absurd hj (by simp)⟩
  | cons c cs ih =>
      cases hc : c.1.isnan with
      | false =>
          have hrw : replace_nans (c :: cs) repl = c :: replace_nans cs repl := by
            simp [replace_nans, hc]
          have hcount : num_nan_vecs (c :: cs) = num_nan_vecs cs := by
            simp [num_nan_vecs, List.filter_cons, hc]
          cases j with
          | zero =>
              refine ⟨fun _ => by simp [hrw], fun _ hnan _ => ?_⟩
              rw [List.getD_cons_zero, hc] at hnan
              exact absurd hnan (by simp)
          | succ j =>
              refine ⟨fun hnan => ?_, fun hj hnan hle => ?_⟩
              · rw [hrw, List.getD_cons_succ, List.getD_cons_succ]
                exact (ih repl hunit j).1 (by rwa [List.getD_cons_succ] at hnan)
              · rw [hrw, List.getD_cons_succ]
                exact (ih repl hunit j).2 (by simpa using hj)
                  (by rwa [List.getD_cons_succ] at hnan) (by rwa [hcount] at hle)
      | true =>
          cases repl with
          | nil =>
              have hrw : replace_nans (c :: cs) [] = c :: replace_nans cs [] := by
                simp [replace_nans, hc]
              refine ⟨fun hnan => ?_, fun _ _ hle => ?_⟩
              · cases j with
                | zero =>
                    rw [List.getD_cons_zero, hc] at hnan
                    exact absurd hnan (by simp)
                | succ j =>
                    rw [hrw, List.getD_cons_succ, List.getD_cons_succ]
                    exact (ih [] hunit j).1 (by rwa [List.getD_cons_succ] at hnan)
              · have : num_nan_vecs (c :: cs) = num_nan_vecs cs + 1 := by
                  simp [num_nan_vecs, List.filter_cons, hc]
                rw [this] at hle
                exact absurd hle (by simp)
          | cons r rs =>
              have hrw : replace_nans (c :: cs) (r :: rs) = finCol r :: replace_nans cs rs := by
                simp [replace_nans, hc]
              have hunit' : ∀ x ∈ rs, x.1 ^ 2 + x.2.1 ^ 2 + x.2.2 ^ 2 = 1 :=
                fun x hx => hunit x (List.mem_cons_of_mem r hx)
              cases j with
              | zero =>
                  refine ⟨fun hnan => ?_, fun _ _ _ => ?_⟩
                  · rw [List.getD_cons_zero, hc] at hnan
                    exact absurd hnan (by simp)
                  · refine ⟨r, List.mem_cons_self r rs, by simp [hrw], rfl, ?_⟩
                    have := hunit r (List.mem_cons_self r rs)
                    simpa [colSqNorm, finCol, FP.toRat] using this
              | succ j =>
                  refine ⟨fun hnan => ?_, fun hj hnan hle => ?_⟩
                  · rw [hrw, List.getD_cons_succ, List.getD_cons_succ]
                    exact (ih rs hunit' j).1 (by rwa [List.getD_cons_succ] at hnan)
                  · have hle' : num_nan_vecs cs ≤ rs.length := by
                      have : num_nan_vecs (c :: cs) = num_nan_vecs cs + 1 := by
                        simp [num_nan_vecs, List.filter_cons, hc]
                      rw [this] at hle
                      simpa using hle
                    rw [hrw, List.getD_cons_succ]
                    obtain ⟨x, hx, hxeq, hxfin, hxsq⟩ :=
                      (ih rs hunit' j).2 (by simpa using hj)
                        (by rwa [List.getD_cons_succ] at hnan) hle'
                    exact ⟨x, List.mem_cons_of_mem r hx, hxeq, hxfin, hxsq⟩

/-- C5 witness: the amended statement instantiated at a 3x2 tensor whose
first column has a NaN first component, with the sampled replacement unit
vector (3/5, 4/5, 0): the flagged column becomes that finite unit vector. -/
theorem C5_witness :
    (∀ r ∈ repl_example, r.1 ^ 2 + r.2.1 ^ 2 + r.2.2 ^ 2 = 1) ∧
    0 < axis_example.length ∧
    (axis_example.getD 0 dflt_col).1.isnan = true ∧
    num_nan_vecs axis_example ≤ repl_example.length ∧
    ∃ r ∈ repl_example, (replace_nans axis_example repl_example).getD 0 dflt_col = finCol r ∧
      colFinite (finCol r) = true ∧ colSqNorm (finCol r) = 1 := by
  have hunit : ∀ r ∈ repl_example, r.1 ^ 2 + r.2.1 ^ 2 + r.2.2 ^ 2 = 1 := by
    intro r hr
    simp [repl_example] at hr
    rw [hr]
    norm_num
  have hlen : 0 < axis_example.length := by simp [axis_example]
  have hnan : (axis_example.getD 0 dflt_col).1.isnan = true := rfl
  have hle : num_nan_vecs axis_example ≤ repl_example.length := by
    simp [num_nan_vecs, axis_example, repl_example, List.filter_cons, FP.isnan]
  exact ⟨hunit, hlen, hnan, hle,
    (C5_replace_nans_localized axis_example repl_example hunit 0).2 hlen hnan hle⟩

/-- C6: requesting both the large-array-removal mode
(`free_memory_by_del_large_arrays`) and voxel-gradient masking
(`apply_volume_mask`) makes `Reconstructor.__init__` raise a `ValueError`
with the source's message immediately, so no `Reconstructor` state — and
hence no iteration — is ever produced. -/
theorem C6_config_error (cfg : InitConfig)
    (hfree : cfg.free_memory_by_del_large_arrays = true)
    (hmask : cfg.apply_volume_mask = true) :
    reconstructor_init cfg =
      Except.error
        "Cannot remove large arrays and apply mask tovolume gradient at the same time." := by
  simp [reconstructor_init, hfree, hmask]

/-- C6 witness: the construction error at a concrete configuration with both
flags set. -/
theorem C6_witness :
    cfg_conflict_example.free_memory_by_del_large_arrays = true ∧
    cfg_conflict_example.apply_volume_mask = true ∧
    reconstructor_init cfg_conflict_example =
      Except.error
        "Cannot remove large arrays and apply mask tovolume gradient at the same time." :=
  ⟨rfl, rfl, C6_config_error cfg_conflict_example rfl rfl⟩

lemma active_indices_from_length (bs : List Bool) (i : ℕ) :
    (active_indices_from bs i).length = bs.count true := by
  induction bs generalizing i with
  | nil => rfl
  | cons b bs ih =>
      cases b <;> simp [active_indices_from, ih, List.count_cons]

lemma active_indices_from_lb (bs : List Bool) (i : ℕ) :
    ∀ x ∈ active_indices_from bs i, i ≤ x := by
  induction bs generalizing i with
  | nil => simp [active_indices_from]
  | cons b bs ih =>
      intro x hx
      cases b with
      | false => exact le_trans (Nat.le_succ i) (ih (i + 1) x hx)
      | true =>
          rcases List.mem_cons.mp hx with h | h
          · exact h ▸ le_refl i
          · exact le_trans (Nat.le_succ i) (ih (i + 1) x h)

lemma active_indices_from_sorted (bs : List Bool) (i : ℕ) :
    (active_indices_from bs i).Pairwise (· < ·) := by
  induction bs generalizing i with
  | nil => simp [active_indices_from]
  | cons b bs ih =>
      cases b with
      | false => simpa [active_indices_from] using ih (i + 1)
      | true =>
          simp only [active_indices_from]
          rw [if_pos trivial, List.pairwise_cons]
          exact ⟨fun x hx => Nat.lt_of_lt_of_le (Nat.lt_succ_self i)
            (active_indices_from_lb bs (i + 1) x hx), ih (i + 1)⟩

lemma foldl_set_length (ps : List (ℕ × ℕ)) (t : List ℤ) :
    (ps.foldl (fun t pv => t.set pv.2 (pv.1 : ℤ)) t).length = t.length := by
  induction ps generalizing t with
  | nil => rfl
  | cons p ps ih => simp [ih]

/-- C7: for the mask over 10 voxels that is true exactly at 1, 4 and 7,
the derived active index list is [1, 4, 7] (length 3), the active tensors of
`create_parameters_from_mask` have length 3, and the inverse index tensor has
size voxel_count + 1 = 11 with -1 everywhere except entries 1 -> 0, 4 -> 1,
7 -> 2; in general the number of active indices equals the count of true
mask entries, the active positions are assigned in ascending voxel order
starting at 0, and the inverse tensor has size voxel_count + 1. -/
theorem C7_active_params_scenario :
    active_indices mask_example = [1, 4, 7] ∧
    (active_indices mask_example).length = 3 ∧
    idx_tensor mask_example = [-1, 0, -1, -1, 1, -1, -1, 2, -1, -1, -1] ∧
    (∀ (two_mode : Bool) (vol : VolumeState),
      (create_parameters_from_mask two_mode vol mask_example).birefringence_active.val.length = 3 ∧
      (create_parameters_from_mask two_mode vol mask_example).optic_axis_active.val.length = 3) ∧
    (∀ mask : List Bool, (active_indices mask).length = mask.count true) ∧
    (∀ mask : List Bool, (active_indices mask).Pairwise (· < ·)) ∧
    (∀ mask : List Bool, (idx_tensor mask).length = mask.length + 1) := by
  refine ⟨by decide, by decide, by decide, ?_, ?_, ?_, ?_⟩
  · intro two_mode vol
    cases two_mode <;> simp [create_parameters_from_mask] <;> decide
  · intro mask
    exact active_indices_from_length mask 0
  · intro mask
    exact active_indices_from_sorted mask 0
  · intro mask
    unfold idx_tensor
    rw [foldl_set_length]
    simp

lemma apply_mask_getD (Delta_n : List ℚ) (mask : List Bool) (i : ℕ)
    (hd : i < Delta_n.length) (hm : i < mask.length)
    (hfalse : mask.getD i true = false) :
    (apply_mask_to_volume Delta_n mask).getD i 1 = 0 := by
  induction Delta_n generalizing mask i with
  | nil => simp at hd
  | cons d ds ih =>
      cases mask with
      | nil => simp at hm
      | cons m ms =>
          cases i with
          | zero =>
              rw [List.getD_cons_zero] at hfalse
              simp [apply_mask_to_volume, hfalse]
          | succ i =>
              have := ih ms i (by simpa using hd) (by simpa using hm)
                (by rwa [List.getD_cons_succ] at hfalse)
              simpa [apply_mask_to_volume] using this

/-- C9: whenever `Reconstructor.__init__` completes (returns a constructed
state), the predicted volume's birefringence is exactly zero at every voxel
whose mask entry is false — `apply_mask_to_volume` multiplied `Delta_n`
elementwise by the boolean voxel mask during construction, before any
optimization iteration (the loss lists of the constructed state are still
empty). -/
theorem C9_initial_volume_masked (cfg : InitConfig) (st : ReconState)
    (hok : reconstructor_init cfg = Except.ok st) (i : ℕ)
    (hd : i < cfg.initial_Delta_n.length) (hm : i < cfg.mask.length)
    (hfalse : cfg.mask.getD i true = false) :
    st.volume_pred_Delta_n.getD i 1 = 0 ∧ st.losses = ⟨[], [], []⟩ := by
  unfold reconstructor_init at hok
  by_cases hc : cfg.free_memory_by_del_large_arrays && cfg.apply_volume_mask
  · simp [hc] at hok
  · simp only [hc, Bool.false_eq_true, if_false, Except.ok.injEq] at hok
    rw [← hok]
    exact ⟨apply_mask_getD cfg.initial_Delta_n cfg.mask i hd hm hfalse, rfl⟩

/-- C9 witness: a two-voxel construction whose mask is false at voxel 1; the
constructed predicted birefringence is zero there. -/
theorem C9_witness :
    reconstructor_init cfg_mask_example =
      Except.ok ⟨false, false, [5, 0], [true, false], ⟨[], [], []⟩⟩ ∧
    1 < cfg_mask_example.initial_Delta_n.length ∧
    1 < cfg_mask_example.mask.length ∧
    cfg_mask_example.mask.getD 1 true = false ∧
    ((⟨false, false, [5, 0], [true, false], ⟨[], [], []⟩⟩ : ReconState).volume_pred_Delta_n.getD 1 1 = 0 ∧
     (⟨false, false, [5, 0], [true, false], ⟨[], [], []⟩⟩ : ReconState).losses = ⟨[], [], []⟩) := by
  have hok : reconstructor_init cfg_mask_example =
      Except.ok ⟨false, false, [5, 0], [true, false], ⟨[], [], []⟩⟩ := by
    norm_num [reconstructor_init, cfg_mask_example, apply_mask_to_volume, List.zip]
  exact ⟨hok, by norm_num [cfg_mask_example], by norm_num [cfg_mask_example],
    by norm_num [cfg_mask_example],
    C9_initial_volume_masked cfg_mask_example _ hok 1
      (by norm_num [cfg_mask_example]) (by norm_num [cfg_mask_example])
      (by norm_num [cfg_mask_example])⟩

/-- C10: in two-component optic-axis mode, `create_parameters_from_mask`
disables gradient tracking on the full-grid optic axis, makes the active
optic axis a plain (non-trainable) slice, makes only rows 1 and 2 of the
active optic axis — the planar components — a trainable parameter, and
`fill_optaxis_component` writes the reconstructed axial value
sqrt(1 - planar_1^2 - planar_2^2) into component 0 of each active column,
fixing component 0 as the derived axial component. -/
theorem C10_two_component_convention (vol : VolumeState) (mask : List Bool) :
    (create_parameters_from_mask true vol mask).optic_axis_requires_grad = false ∧
    (create_parameters_from_mask true vol mask).optic_axis_active.requires_grad = false ∧
    (create_parameters_from_mask true vol mask).optic_axis_planar =
      some ⟨((active_indices mask).map (fun i => vol.optic_axis.val.getD i (fun _ => 0))).map
              (fun c => ![c 1, c 2]), true⟩ ∧
    (fill_optaxis_component (create_parameters_from_mask true vol mask)).optic_axis_active.val =
      (((active_indices mask).map (fun i => vol.optic_axis.val.getD i (fun _ => 0))).map
          (fun c => ![c 1, c 2])).map fill_vector_based_on_nonaxial ∧
    (∀ planar : Fin 2 → ℝ,
      fill_vector_based_on_nonaxial planar 0 = Real.sqrt (1 - planar 0 ^ 2 - planar 1 ^ 2) ∧
      fill_vector_based_on_nonaxial planar 1 = planar 0 ∧
      fill_vector_based_on_nonaxial planar 2 = planar 1) := by
  refine ⟨rfl, rfl, rfl, rfl, fun planar => ⟨rfl, rfl, rfl⟩⟩

end BirT
